import Mathlib

set_option maxRecDepth 100000

/-!
Shallow embedding of the exported code of `nbs/03_Lazy Evaluation Framework.ipynb`
(nbdev module `LazyEvaluationFramework`).

The exported cells define:
  - the dataclass `LazyState` (problem, steps, current_step) with methods
    `add_step`, `get_context`, `refresh`;
  - the dataclass `LLM` (an AnthropicVertex transport client plus a model name);
  - the module-level string `lazy_system_p`;
  - the class `LazyEvaluationClient` with `__init__`, `initalize_problem`,
    `get_current_step`, `get_next_step`, and the patched method `ask_question`;
  - the patched factory `lazy` on `AnthropicVertex`.

Python features are modelled as follows.  Python `str` is Lean `String`;
`str.strip()` is `pyStrip` (drop whitespace from both ends); the f-string
rendering of a `list[str]` value is `pyListRepr` (Python `repr` of the list).
Exceptions are the inductive `PyError`; a call that can raise returns an
`Except PyError` result.  Module-level (global) name lookup is modelled by an
explicit association list `Globals`: the exported module binds the string
`lazy_system_p` but binds neither `system` nor `model`, which is recorded in
`exportedGlobals`.  The external Anthropic backend (`client.messages.create`
followed by the `response.content[0].text` extraction) is an opaque function
parameter of type `Backend`; a `none` result models `content[0].text` being
`None`.  Methods that may call the backend return, besides the
`Except PyError` result and the post-call object, the number of backend
invocations the call performed.
-/

/-- Exceptions raised by the modelled code.  Messages that in CPython contain
quoted identifiers are rendered here without the quote characters. -/
inductive PyError where
  | valueError : String → PyError
  | nameError : String → PyError
  | attributeError : String → PyError
  | indexError : String → PyError
deriving DecidableEq, Repr

/-- Model of Python `str.strip()`: remove whitespace characters from both ends
of the string. -/
def pyStrip (s : String) : String :=
  String.mk (((s.data.dropWhile Char.isWhitespace).reverse.dropWhile Char.isWhitespace).reverse)

/-- The single-quote character, written by code point to keep the source plain. -/
def squoteChar : Char := Char.ofNat 39

/-- The double-quote character, written by code point. -/
def dquoteChar : Char := Char.ofNat 34

/-- The backslash character, written by code point. -/
def backslashChar : Char := Char.ofNat 92

/-- Hexadecimal digit character for a value below 16 (lower case letters, as
CPython prints them). -/
def hexDigitChar (n : Nat) : Char :=
  if n < 10 then Char.ofNat (48 + n) else Char.ofNat (87 + n)

/-- Quote character CPython `repr` chooses for a string: single quote, unless
the string contains a single quote and no double quote. -/
def pyQuote (s : String) : Char :=
  if s.data.contains squoteChar && !(s.data.contains dquoteChar) then dquoteChar else squoteChar

/-- CPython `repr` escaping of one character, given the chosen quote character.
Printable characters other than the quote and the backslash are kept verbatim
(as CPython does for printable text). -/
def pyEscapeChar (q : Char) (c : Char) : String :=
  if c = backslashChar then String.mk [backslashChar, backslashChar]
  else if c = q then String.mk [backslashChar, q]
  else if c = Char.ofNat 10 then String.mk [backslashChar, Char.ofNat 110]
  else if c = Char.ofNat 13 then String.mk [backslashChar, Char.ofNat 114]
  else if c = Char.ofNat 9 then String.mk [backslashChar, Char.ofNat 116]
  else if c.toNat < 32 || c.toNat = 127 then
    String.mk [backslashChar, Char.ofNat 120, hexDigitChar (c.toNat / 16), hexDigitChar (c.toNat % 16)]
  else String.mk [c]

/-- CPython `repr` of a string. -/
def pyStrRepr (s : String) : String :=
  let q := pyQuote s
  String.mk [q] ++ String.join (s.data.map (pyEscapeChar q)) ++ String.mk [q]

/-- Join a list of strings with a separator (the rendering CPython uses between
list elements). -/
def joinSep (sep : String) : List String → String
  | [] => ""
  | [x] => x
  | x :: y :: rest => x ++ sep ++ joinSep sep (y :: rest)

/-- CPython `repr` of a `list[str]` value, as an f-string renders `{self.steps}`
or `{self.question_history}`. -/
def pyListRepr (xs : List String) : String :=
  "[" ++ joinSep ", " (xs.map pyStrRepr) ++ "]"

/-- The dataclass `LazyState`: the problem text, the ordered list of disclosed
steps, and the current step index. -/
structure LazyState where
  problem : String
  steps : List String
  current_step : Nat
deriving DecidableEq, Repr

/-- The dataclass constructor `LazyState(problem=p)` together with
`__post_init__`, at the default field values `steps=[]`, `current_step=0`:
`__post_init__` appends the problem to the (empty) step list.  The body
contains no validation and no raise, so construction always succeeds. -/
def LazyState.create (problem : String) : LazyState :=
  { problem := problem, steps := [] ++ [problem], current_step := 0 }

/-- Method `LazyState.add_step`: append the step and increment `current_step`. -/
def LazyState.add_step (s : LazyState) (step : String) : LazyState :=
  { s with steps := s.steps ++ [step], current_step := s.current_step + 1 }

/-- Method `LazyState.get_context`: the f-string
`Problem: {self.problem} \n Steps so far: {self.steps}` (note the literal
spaces around the newline, and the Python list rendering of `steps`). -/
def LazyState.get_context (s : LazyState) : String :=
  "Problem: " ++ s.problem ++ " \n Steps so far: " ++ pyListRepr s.steps

/-- Method `LazyState.refresh`: set `current_step` to 0 and the step list back
to `[self.problem]`. -/
def LazyState.refresh (s : LazyState) : LazyState :=
  { s with current_step := 0, steps := [s.problem] }

/-- Folding `add_step` over a list of steps appends the whole list and advances
`current_step` by its length; the problem field is untouched. -/
theorem LazyState.foldl_add_step (xs : List String) (s : LazyState) :
    xs.foldl LazyState.add_step s
      = { problem := s.problem, steps := s.steps ++ xs, current_step := s.current_step + xs.length } := by
  induction xs generalizing s with
  | nil => simp
  | cons x rest ih =>
      simp only [List.foldl_cons, ih, LazyState.add_step, List.length_cons]
      simp [List.append_assoc]
      omega

/-- Claim C4, counterexample.  The claim states that `create("")` fails with an
`InvalidInputError`.  The dataclass constructor of `LazyState` contains no
validation and no raise statement at all: `LazyState(problem="")` succeeds and
yields the ordinary state with `steps = [""]` and `current_step = 0`, so no
`InvalidInputError` (nor any other failure) occurs on the empty problem. -/
theorem C4_counterexample_empty_problem_accepted :
    LazyState.create "" = { problem := "", steps := [""], current_step := 0 } := by
  decide

/-- Claim C4, amended.  `create(problem)` never fails: for every problem text,
the empty string included, it succeeds and initializes `steps = [problem]` and
`current_step = 0`. -/
theorem C4_create_total (problem : String) :
    LazyState.create problem = { problem := problem, steps := [problem], current_step := 0 } :=
  rfl

/-- Claim C7 (confirmed).  For every non-empty problem, after `create(problem)`
followed by any finite sequence of `add_step` calls, `current_step` equals the
number of appended steps and the head of `steps` is the problem; after `create`
alone the state is exactly `steps = [problem]`, `current_step = 0`; and every
single `add_step` call increments `current_step` by exactly 1. -/
theorem C7_append_monotonicity (problem : String) (hp : problem ≠ "") (xs : List String) :
    (xs.foldl LazyState.add_step (LazyState.create problem)).current_step = xs.length ∧
    (xs.foldl LazyState.add_step (LazyState.create problem)).steps.head? = some problem ∧
    (xs.foldl LazyState.add_step (LazyState.create problem)).steps = problem :: xs ∧
    LazyState.create problem = { problem := problem, steps := [problem], current_step := 0 } ∧
    ∀ (s : LazyState) (x : String), (s.add_step x).current_step = s.current_step + 1 := by
  rw [LazyState.foldl_add_step]
  refine ⟨by simp [LazyState.create], by simp [LazyState.create], by simp [LazyState.create], rfl, ?_⟩
  intro s x
  rfl

/-- Claim C7, witness at the concrete input of the spec scenario. -/
theorem C7_witness :
    ((["Add 2 and 2", "4"].foldl LazyState.add_step (LazyState.create "2+2?")).current_step = 2 ∧
    (["Add 2 and 2", "4"].foldl LazyState.add_step (LazyState.create "2+2?")).steps.head? = some "2+2?" ∧
    (["Add 2 and 2", "4"].foldl LazyState.add_step (LazyState.create "2+2?")).steps = "2+2?" :: ["Add 2 and 2", "4"] ∧
    LazyState.create "2+2?" = { problem := "2+2?", steps := ["2+2?"], current_step := 0 } ∧
    ∀ (s : LazyState) (x : String), (s.add_step x).current_step = s.current_step + 1) := by
  exact C7_append_monotonicity "2+2?" (by decide) ["Add 2 and 2", "4"]

/-- Claim C8 (confirmed).  For every non-empty problem and any finite sequence
of appended steps, `refresh` returns the tracker to exactly the state produced
by `create(problem)`: it resets `current_step` to 0 and the step list to
`[problem]`, and `add_step` never changes the problem field. -/
theorem C8_reset_round_trip (problem : String) (hp : problem ≠ "") (xs : List String) :
    (xs.foldl LazyState.add_step (LazyState.create problem)).refresh = LazyState.create problem := by
  rw [LazyState.foldl_add_step]
  rfl

/-- Claim C8, witness at the concrete input of the spec scenario. -/
theorem C8_witness :
    (["Add 2 and 2"].foldl LazyState.add_step (LazyState.create "2+2?")).refresh
      = LazyState.create "2+2?" :=
  C8_reset_round_trip "2+2?" (by decide) ["Add 2 and 2"]

/-- Claim C10 (confirmed).  `get_context` reads only the `problem` and `steps`
fields, so any two states agreeing on those two fields (the index may differ)
render character-identical context strings; moreover every rendering has the
fixed format of the source f-string, and it contains the problem text and the
full Python rendering of the ordered step list as substrings. -/
theorem C10_context_deterministic :
    (∀ s₁ s₂ : LazyState, s₁.problem = s₂.problem → s₁.steps = s₂.steps →
      s₁.get_context = s₂.get_context) ∧
    (∀ s : LazyState,
      s.get_context = "Problem: " ++ s.problem ++ " \n Steps so far: " ++ pyListRepr s.steps ∧
      (∃ pre post : String, s.get_context = pre ++ s.problem ++ post) ∧
      (∃ pre : String, s.get_context = pre ++ pyListRepr s.steps)) := by
  constructor
  · intro s₁ s₂ hp hs
    simp [LazyState.get_context, hp, hs]
  · intro s
    refine ⟨rfl, ⟨"Problem: ", " \n Steps so far: " ++ pyListRepr s.steps, ?_⟩,
      ⟨"Problem: " ++ s.problem ++ " \n Steps so far: ", rfl⟩⟩
    simp [LazyState.get_context, String.append_assoc]

/-- Claim C10, witness: two concrete states that differ only in `current_step`
render the same context string. -/
theorem C10_witness :
    LazyState.get_context { problem := "2+2?", steps := ["2+2?", "4"], current_step := 1 }
      = LazyState.get_context { problem := "2+2?", steps := ["2+2?", "4"], current_step := 0 } :=
  C10_context_deterministic.1
    { problem := "2+2?", steps := ["2+2?", "4"], current_step := 1 }
    { problem := "2+2?", steps := ["2+2?", "4"], current_step := 0 } rfl rfl

/-- Module-level string bindings visible to the code at call time, as an
association list from names to string values.  Python resolves a bare name
against the module globals at each use. -/
def Globals := List (String × String)

/-- Python global-name resolution: an unbound name raises `NameError`. -/
def lookupGlobal (g : Globals) (name : String) : Except PyError String :=
  match List.lookup name g with
  | some v => Except.ok v
  | none => Except.error (PyError.nameError name)

/-- The exported module-level string `lazy_system_p` (the triple-quoted system
instruction, verbatim, surrounding indentation included). -/
def lazy_system_p : String :=
  "\n        You are a helpful assistant that can help with math problems.\n        You will be given a problem and a list of steps as context, the format will be:\n                \n        PROBLEM: <problem>\n        STEPS: <steps>\n\n        Your job is to complete the next step and only the next step in the problem-solving process. You should never give more than one step.\n        If you evaluate that the problem is done, respond with \"PROBLEM DONE\"\n        "

/-- The string-valued globals of the exported `LazyEvaluationFramework` module:
the only exported module-level string assignment is `lazy_system_p`.  In
particular neither `system` (referenced by `LazyEvaluationClient.__init__` and
`get_next_step`) nor `model` (referenced by the `lazy` factory; it is assigned
only in a hidden, non-exported notebook cell) is bound. -/
def exportedGlobals : Globals := [("lazy_system_p", lazy_system_p)]

/-- The dataclass `LLM`.  Its `client` field is the opaque `AnthropicVertex`
transport handle, which the model represents separately as the `Backend`
function; only the `model` name participates in the modelled behavior. -/
structure LLM where
  model : String
deriving DecidableEq, Repr

/-- One role-tagged message of the `messages` list sent to the backend. -/
structure MessageParam where
  role : String
  content : String
deriving DecidableEq, Repr

/-- The external text-generation capability: `client.messages.create` applied
to (system instruction, model name, messages, max_tokens), composed with the
`response.content[0].text` extraction.  A `none` result models that extracted
text being `None`. -/
def Backend := String → String → List MessageParam → Nat → Option String

/-- The class `LazyEvaluationClient`: model name, token ceiling, the optional
bound tracker, the stored system instruction and the flat question history
list (questions and answers interleaved, in call order). -/
structure LazyEvaluationClient where
  model : String
  max_tokens : Nat
  state : Option LazyState
  system : String
  question_history : List String
deriving DecidableEq, Repr

/-- `LazyEvaluationClient.__init__`: after storing model, max_tokens and state,
it evaluates the bare global name `system` (`self.system = system`) — not the
exported binding `lazy_system_p` — so construction succeeds only in an
environment that binds `system`; under the exported module globals it raises
`NameError`, and the partially initialized object is discarded. -/
def LazyEvaluationClient.init (g : Globals) (llm : LLM) (max_tokens : Nat)
    (state : Option LazyState) : Except PyError LazyEvaluationClient :=
  match lookupGlobal g "system" with
  | Except.error e => Except.error e
  | Except.ok sys =>
      Except.ok { model := llm.model, max_tokens := max_tokens, state := state,
                  system := sys, question_history := [] }

/-- Method `initalize_problem` (spelled as in the source): bind a fresh
tracker. -/
def LazyEvaluationClient.initalize_problem (c : LazyEvaluationClient) (problem : String) :
    LazyEvaluationClient :=
  { c with state := some (LazyState.create problem) }

/-- The explicit guard error of `get_next_step` on a missing tracker. -/
def notInitializedGuard : PyError :=
  PyError.valueError "Problem is not initialized, call initalize_problem first"

/-- Method `get_next_step`.  Guard: `state is None` raises the initialization
`ValueError`.  Then the single user message is built from `get_context`, the
bare global `system` is resolved (keyword argument `system=system` of the
`create` call — a `NameError` there precedes the backend call), the backend is
invoked, and the stripped text is unconditionally recorded via `add_step` and
returned; a `None` text raises `ValueError`.  The third component of the
result counts backend invocations performed by the call. -/
def LazyEvaluationClient.get_next_step (g : Globals) (b : Backend)
    (c : LazyEvaluationClient) : Except PyError String × LazyEvaluationClient × Nat :=
  match c.state with
  | none => (Except.error notInitializedGuard, c, 0)
  | some st =>
      match lookupGlobal g "system" with
      | Except.error e => (Except.error e, c, 0)
      | Except.ok sys =>
          match b sys c.model [{ role := "user", content := st.get_context }] c.max_tokens with
          | none => (Except.error (PyError.valueError "No next step found"), c, 1)
          | some next_step =>
              (Except.ok (pyStrip next_step),
               { c with state := some (st.add_step (pyStrip next_step)) }, 1)

/-- The `system=current_state` keyword argument of the backend call inside
`ask_question`: the triple-quoted f-string rendered verbatim (the escaped
newline after the problem gives a blank line). -/
def askSystemPrompt (c : LazyEvaluationClient) (st : LazyState) (cur : String) : String :=
  "\n        System: " ++ c.system ++ "\n        Problem: " ++ st.problem ++ "\n\n        Context: "
    ++ st.get_context ++ "\n        Current step: " ++ cur ++ "\n    "

/-- The user-message f-string of `ask_question`, embedding the Python list
rendering of the flat question history and the new question. -/
def askUserPrompt (c : LazyEvaluationClient) (question : String) : String :=
  "\n        Question History: " ++ pyListRepr c.question_history ++ "\n        Question: "
    ++ question ++ "\n\n        Please answer the question without advancing to the next step.\n        If you are asked to provide an example for a specific step, please provide an example that is not in the current context.\n    "

/-- The patched method `ask_question`.  It has no initialization guard: with
`state = None` the f-string access `self.state.problem` raises
`AttributeError`; an out-of-range `current_step` raises `IndexError` at
`self.state.steps[self.state.current_step]`.  Otherwise the backend is invoked
once with the composed system prompt; if the extracted text is `None`, the
`.strip()` call raises `AttributeError` — after the question alone has already
been appended to `question_history`.  On success the question and the stripped
answer are appended, in that order, and the stripped answer is returned. -/
def LazyEvaluationClient.ask_question (b : Backend) (c : LazyEvaluationClient)
    (question : String) : Except PyError String × LazyEvaluationClient × Nat :=
  match c.state with
  | none => (Except.error (PyError.attributeError "NoneType object has no attribute problem"), c, 0)
  | some st =>
      match st.steps.get? st.current_step with
      | none => (Except.error (PyError.indexError "list index out of range"), c, 0)
      | some cur =>
          match b (askSystemPrompt c st cur) c.model
              [{ role := "user", content := askUserPrompt c question }] c.max_tokens with
          | none =>
              (Except.error (PyError.attributeError "NoneType object has no attribute strip"),
               { c with question_history := c.question_history ++ [question] }, 1)
          | some text =>
              (Except.ok (pyStrip text),
               { c with question_history := c.question_history ++ [question, pyStrip text] }, 1)

/-- The patched factory `lazy` on `AnthropicVertex`: build a fresh tracker,
then evaluate `LLM(client=self, model=model)` — `model` is a bare global name,
assigned only in a hidden non-exported cell — and construct the client with
the default token ceiling of 100. -/
def lazy (g : Globals) (problem : String) : Except PyError LazyEvaluationClient :=
  let state := LazyState.create problem
  match lookupGlobal g "model" with
  | Except.error e => Except.error e
  | Except.ok m => LazyEvaluationClient.init g { model := m } 100 (some state)

deriving instance DecidableEq for Except

/-- A session environment in which the notebook cells were actually runnable:
the bare names `system` and `model` are bound (here `system` to the intended
instruction `lazy_system_p`).  Used to exercise the step logic past the
unbound-name failure that `exportedGlobals` exhibits. -/
def sessionGlobals : Globals :=
  [("system", lazy_system_p), ("model", "claude-3-5-sonnet")]

/-- A backend stub that always generates the terminal sentinel text. -/
def doneBackend : Backend := fun _ _ _ _ => some "PROBLEM DONE"

/-- A concrete client bound to a fresh tracker for the problem of the spec
scenario, as a session with `system` bound would construct it. -/
def clientA : LazyEvaluationClient :=
  { model := "claude-3-5-sonnet", max_tokens := 100,
    state := some (LazyState.create "2+2?"), system := lazy_system_p,
    question_history := [] }

/-- A concrete client with no tracker bound (the UNINITIALIZED shape). -/
def clientUninit : LazyEvaluationClient :=
  { model := "claude-3-5-sonnet", max_tokens := 100, state := none,
    system := lazy_system_p, question_history := [] }

/-- Claim C3 (confirmed).  Under the globals of the exported module, direct
construction of a `LazyEvaluationClient` fails with `NameError` on the bare
name `system` (the instruction is bound to the distinct name `lazy_system_p`,
which resolves fine); the `lazy` factory entry point also fails with a
`NameError` before any session can begin (it trips first on the likewise
unbound global `model` while building the `LLM` argument, before reaching
`__init__`); and `get_next_step` on any client with a bound tracker fails with
`NameError` on `system` without invoking the backend. -/
theorem C3_nameerror_on_construction (llm : LLM) (mt : Nat) (st0 : Option LazyState)
    (problem : String) (b : Backend) (c : LazyEvaluationClient) (st : LazyState)
    (hs : c.state = some st) :
    LazyEvaluationClient.init exportedGlobals llm mt st0
      = Except.error (PyError.nameError "system") ∧
    lazy exportedGlobals problem = Except.error (PyError.nameError "model") ∧
    LazyEvaluationClient.get_next_step exportedGlobals b c
      = (Except.error (PyError.nameError "system"), c, 0) ∧
    lookupGlobal exportedGlobals "system" = Except.error (PyError.nameError "system") ∧
    lookupGlobal exportedGlobals "lazy_system_p" = Except.ok lazy_system_p := by
  obtain ⟨m, mt2, cs, sy, qh⟩ := c
  obtain rfl : cs = some st := hs
  exact ⟨rfl, rfl, rfl, rfl, rfl⟩

/-- Claim C3, witness at concrete inputs. -/
theorem C3_witness :
    LazyEvaluationClient.init exportedGlobals { model := "claude-3-5-sonnet" } 100 none
      = Except.error (PyError.nameError "system") ∧
    lazy exportedGlobals "2+2?" = Except.error (PyError.nameError "model") ∧
    LazyEvaluationClient.get_next_step exportedGlobals doneBackend clientA
      = (Except.error (PyError.nameError "system"), clientA, 0) ∧
    lookupGlobal exportedGlobals "system" = Except.error (PyError.nameError "system") ∧
    lookupGlobal exportedGlobals "lazy_system_p" = Except.ok lazy_system_p :=
  C3_nameerror_on_construction { model := "claude-3-5-sonnet" } 100 none "2+2?"
    doneBackend clientA (LazyState.create "2+2?") rfl

/-- Claim C5, counterexample.  On an uninitialized client, `ask_question` does
not fail with the NotInitializedError-class guard (the explicit initialization
`ValueError` that `get_next_step` raises): it fails with an `AttributeError`
raised by dereferencing `self.state.problem` on `None`, a different error
class, because `ask_question` contains no initialization check at all. -/
theorem C5_counterexample_ask_question_not_guarded :
    (LazyEvaluationClient.ask_question doneBackend clientUninit "why?").1
      = Except.error (PyError.attributeError "NoneType object has no attribute problem") ∧
    (Except.error (PyError.attributeError "NoneType object has no attribute problem")
        : Except PyError String)
      ≠ Except.error notInitializedGuard := by
  decide

/-- Claim C5, amended.  On a client whose `state` is `None`, `get_next_step`
fails with the explicit initialization `ValueError` guard, while `ask_question`
(which has no guard) fails with an `AttributeError` from accessing
`self.state.problem`; both calls leave the client unchanged and invoke the
backend zero times. -/
theorem C5_uninitialized_errors (g : Globals) (b : Backend) (c : LazyEvaluationClient)
    (q : String) (hs : c.state = none) :
    LazyEvaluationClient.get_next_step g b c = (Except.error notInitializedGuard, c, 0) ∧
    LazyEvaluationClient.ask_question b c q
      = (Except.error (PyError.attributeError "NoneType object has no attribute problem"), c, 0) := by
  obtain ⟨m, mt, cs, sy, qh⟩ := c
  obtain rfl : cs = none := hs
  exact ⟨rfl, rfl⟩

/-- Claim C5, witness at concrete inputs. -/
theorem C5_witness :
    LazyEvaluationClient.get_next_step exportedGlobals doneBackend clientUninit
      = (Except.error notInitializedGuard, clientUninit, 0) ∧
    LazyEvaluationClient.ask_question doneBackend clientUninit "why?"
      = (Except.error (PyError.attributeError "NoneType object has no attribute problem"),
         clientUninit, 0) :=
  C5_uninitialized_errors exportedGlobals doneBackend clientUninit "why?" rfl

/-- Stripping the sentinel text is the identity (it has no surrounding
whitespace). -/
theorem pyStrip_sentinel : pyStrip "PROBLEM DONE" = "PROBLEM DONE" := by decide

/-- Claim C2, counterexample.  With the tracker freshly created for "2+2?" and
a backend whose generated text is exactly the terminal sentinel, the claim
requires the call to return the sentinel while leaving `steps` and
`current_step` unchanged.  The code performs no sentinel comparison: the call
does return the sentinel, but it also appends the sentinel to `steps` via
`add_step` and increments `current_step` from 0 to 1. -/
theorem C2_counterexample_sentinel_mutates_state :
    (LazyEvaluationClient.get_next_step sessionGlobals doneBackend clientA).1
      = Except.ok "PROBLEM DONE" ∧
    ((LazyEvaluationClient.get_next_step sessionGlobals doneBackend clientA).2.1).state
      = some { problem := "2+2?", steps := ["2+2?", "PROBLEM DONE"], current_step := 1 } := by
  decide

/-- Claim C2, amended.  For every state with a bound tracker (in an environment
where the bare global `system` resolves), whenever the backend produces a text,
`get_next_step` strips it, unconditionally records it via `add_step`, and
returns it — there is no sentinel check.  In particular, when the stripped
text equals the terminal sentinel "PROBLEM DONE", the sentinel is returned but
`steps` gains the sentinel as a new entry and `current_step` is incremented,
contrary to the leave-unchanged behavior the claim describes. -/
theorem C2_sentinel_still_appended (g : Globals) (b : Backend) (c : LazyEvaluationClient)
    (st : LazyState) (sys t : String)
    (hg : lookupGlobal g "system" = Except.ok sys) (hs : c.state = some st)
    (hb : b sys c.model [{ role := "user", content := st.get_context }] c.max_tokens = some t) :
    LazyEvaluationClient.get_next_step g b c
      = (Except.ok (pyStrip t), { c with state := some (st.add_step (pyStrip t)) }, 1) ∧
    (pyStrip t = "PROBLEM DONE" →
      ((LazyEvaluationClient.get_next_step g b c).2.1).state
        = some { problem := st.problem, steps := st.steps ++ ["PROBLEM DONE"],
                 current_step := st.current_step + 1 }) := by
  obtain ⟨m, mt, cs, sy, qh⟩ := c
  obtain rfl : cs = some st := hs
  constructor
  · simp only [LazyEvaluationClient.get_next_step, hg, hb]
  · intro hd
    simp only [LazyEvaluationClient.get_next_step, hg, hb]
    simp [LazyState.add_step, hd]

/-- Claim C2, witness at concrete inputs. -/
theorem C2_witness :
    LazyEvaluationClient.get_next_step sessionGlobals doneBackend clientA
      = (Except.ok (pyStrip "PROBLEM DONE"),
         { clientA with
             state := some ((LazyState.create "2+2?").add_step (pyStrip "PROBLEM DONE")) }, 1) ∧
    (pyStrip "PROBLEM DONE" = "PROBLEM DONE" →
      ((LazyEvaluationClient.get_next_step sessionGlobals doneBackend clientA).2.1).state
        = some { problem := (LazyState.create "2+2?").problem,
                 steps := (LazyState.create "2+2?").steps ++ ["PROBLEM DONE"],
                 current_step := (LazyState.create "2+2?").current_step + 1 }) :=
  C2_sentinel_still_appended sessionGlobals doneBackend clientA (LazyState.create "2+2?")
    lazy_system_p "PROBLEM DONE" (by decide) rfl rfl

/-- Claim C1, counterexample.  After a `get_next_step` call has returned the
terminal sentinel, the claim requires every subsequent call to return the
sentinel without invoking the backend and without changing `steps` or
`current_step`.  With a backend that keeps generating the sentinel, the second
call performs one further backend invocation (count 1, not 0), and its
post-state differs from the state after the first call (a second copy of the
sentinel is appended and the index advances again). -/
theorem C1_counterexample_second_call_invokes_backend :
    (LazyEvaluationClient.get_next_step sessionGlobals doneBackend clientA).1
      = Except.ok "PROBLEM DONE" ∧
    (LazyEvaluationClient.get_next_step sessionGlobals doneBackend
        ((LazyEvaluationClient.get_next_step sessionGlobals doneBackend clientA).2.1)).2.2 = 1 ∧
    ((LazyEvaluationClient.get_next_step sessionGlobals doneBackend
        ((LazyEvaluationClient.get_next_step sessionGlobals doneBackend clientA).2.1)).2.1).state
      ≠ ((LazyEvaluationClient.get_next_step sessionGlobals doneBackend clientA).2.1).state := by
  decide

/-- Claim C1, amended.  The code has no terminal state and no guard: a
`get_next_step` call made after a previous call returned the sentinel invokes
the backend exactly once more and appends the newly stripped response to the
tracker (the first sentinel-returning call itself already appended the
sentinel); the sentinel is returned again only if the backend happens to
produce it again, never by a guarded short-circuit. -/
theorem C1_no_terminal_guard (g : Globals) (b : Backend) (c : LazyEvaluationClient)
    (st : LazyState) (sys t2 : String)
    (hg : lookupGlobal g "system" = Except.ok sys) (hs : c.state = some st)
    (hb1 : b sys c.model [{ role := "user", content := st.get_context }] c.max_tokens
      = some "PROBLEM DONE")
    (hb2 : b sys c.model
        [{ role := "user", content := (st.add_step "PROBLEM DONE").get_context }] c.max_tokens
      = some t2) :
    (LazyEvaluationClient.get_next_step g b c).1 = Except.ok "PROBLEM DONE" ∧
    ((LazyEvaluationClient.get_next_step g b c).2.1).state
      = some (st.add_step "PROBLEM DONE") ∧
    LazyEvaluationClient.get_next_step g b
        ((LazyEvaluationClient.get_next_step g b c).2.1)
      = (Except.ok (pyStrip t2),
         { c with state := some ((st.add_step "PROBLEM DONE").add_step (pyStrip t2)) }, 1) := by
  obtain ⟨m, mt, cs, sy, qh⟩ := c
  obtain rfl : cs = some st := hs
  have h1 : LazyEvaluationClient.get_next_step g b
      { model := m, max_tokens := mt, state := some st, system := sy, question_history := qh }
      = (Except.ok "PROBLEM DONE",
         { model := m, max_tokens := mt, state := some (st.add_step "PROBLEM DONE"),
           system := sy, question_history := qh }, 1) := by
    simp only [LazyEvaluationClient.get_next_step, hg, hb1, pyStrip_sentinel]
  rw [h1]
  refine ⟨rfl, rfl, ?_⟩
  simp only [LazyEvaluationClient.get_next_step, hg, hb2]

/-- Claim C1, witness at concrete inputs (the backend generates the sentinel on
both calls). -/
theorem C1_witness :
    (LazyEvaluationClient.get_next_step sessionGlobals doneBackend clientA).1
      = Except.ok "PROBLEM DONE" ∧
    ((LazyEvaluationClient.get_next_step sessionGlobals doneBackend clientA).2.1).state
      = some ((LazyState.create "2+2?").add_step "PROBLEM DONE") ∧
    LazyEvaluationClient.get_next_step sessionGlobals doneBackend
        ((LazyEvaluationClient.get_next_step sessionGlobals doneBackend clientA).2.1)
      = (Except.ok (pyStrip "PROBLEM DONE"),
         { clientA with
             state := some (((LazyState.create "2+2?").add_step "PROBLEM DONE").add_step
               (pyStrip "PROBLEM DONE")) }, 1) :=
  C1_no_terminal_guard sessionGlobals doneBackend clientA (LazyState.create "2+2?")
    lazy_system_p "PROBLEM DONE" (by decide) rfl rfl rfl

/-- View of the flat, alternating question history as the ordered sequence of
(question, answer) pairs it records: consecutive entries are paired up. -/
def chunkPairs : List String → List (String × String)
  | q :: a :: rest => (q, a) :: chunkPairs rest
  | _ => []

/-- Appending one question/answer couple to an even-length flat history appends
exactly one pair to its paired view. -/
theorem chunkPairs_append : ∀ (l : List String) (q a : String), l.length % 2 = 0 →
    chunkPairs (l ++ [q, a]) = chunkPairs l ++ [(q, a)]
  | [], _, _, _ => rfl
  | [x], _, _, h => by simp at h
  | x :: y :: rest, q, a, h => by
      have ih := chunkPairs_append rest q a (by simp at h; omega)
      simp [chunkPairs, ih]

/-- Claim C9 (confirmed).  Every successful `ask_question` call appends exactly
the question followed by the stripped backend answer to the (flat, alternating)
question history — so, in the paired view of that log, exactly one
(question, answer) pair — returns that stripped answer, performs exactly one
backend call, and changes nothing else (the log is append-only: the old
history is a prefix of the new one). -/
theorem C9_question_log_append (b : Backend) (c : LazyEvaluationClient) (q r : String)
    (c2 : LazyEvaluationClient) (n : Nat)
    (h : LazyEvaluationClient.ask_question b c q = (Except.ok r, c2, n)) :
    c2 = { c with question_history := c.question_history ++ [q, r] } ∧
    n = 1 ∧
    (∃ st cur text, c.state = some st ∧ st.steps.get? st.current_step = some cur ∧
      b (askSystemPrompt c st cur) c.model
        [{ role := "user", content := askUserPrompt c q }] c.max_tokens = some text ∧
      r = pyStrip text) ∧
    (c.question_history.length % 2 = 0 →
      chunkPairs c2.question_history = chunkPairs c.question_history ++ [(q, r)]) := by
  unfold LazyEvaluationClient.ask_question at h
  split at h
  · simp at h
  · rename_i st hst
    split at h
    · simp at h
    · rename_i cur hcur
      split at h
      · simp at h
      · rename_i text htext
        injection h with h1 h23
        injection h23 with h2 h3
        injection h1 with h1
        subst h1
        subst h2
        subst h3
        refine ⟨rfl, rfl, ⟨st, cur, text, hst, hcur, htext, rfl⟩, ?_⟩
        intro heven
        exact chunkPairs_append c.question_history q (pyStrip text) heven

/-- A backend stub that generates a fixed non-terminal answer with surrounding
whitespace. -/
def answerBackend : Backend := fun _ _ _ _ => some " Substitution replaces the variable. "

/-- The client `clientA` after one successful question/answer exchange. -/
def clientAAsked : LazyEvaluationClient :=
  { model := "claude-3-5-sonnet", max_tokens := 100,
    state := some (LazyState.create "2+2?"), system := lazy_system_p,
    question_history := ["what is substitution?", "Substitution replaces the variable."] }

/-- Claim C9, witness at concrete inputs. -/
theorem C9_witness :
    clientAAsked
      = { clientA with
          question_history := clientA.question_history
            ++ ["what is substitution?", "Substitution replaces the variable."] } ∧
    (1 : Nat) = 1 ∧
    (∃ st cur text, clientA.state = some st ∧ st.steps.get? st.current_step = some cur ∧
      answerBackend (askSystemPrompt clientA st cur) clientA.model
        [{ role := "user", content := askUserPrompt clientA "what is substitution?" }]
        clientA.max_tokens = some text ∧
      "Substitution replaces the variable." = pyStrip text) ∧
    (clientA.question_history.length % 2 = 0 →
      chunkPairs clientAAsked.question_history
        = chunkPairs clientA.question_history
          ++ [("what is substitution?", "Substitution replaces the variable.")]) :=
  C9_question_log_append answerBackend clientA "what is substitution?"
    "Substitution replaces the variable." clientAAsked 1 (by decide)

/-- One operation of the interactive loop: a step-reveal request or a question
with its text. -/
inductive Op where
  | reveal : Op
  | ask : String → Op
deriving DecidableEq, Repr

/-- Whether an operation is the step-reveal request. -/
def Op.isReveal : Op → Bool
  | Op.reveal => true
  | Op.ask _ => false

/-- Apply one loop operation to a client, keeping the post-call client (the
loop prints the result and continues). -/
def runOp (g : Globals) (b : Backend) (c : LazyEvaluationClient) : Op → LazyEvaluationClient
  | Op.reveal => (LazyEvaluationClient.get_next_step g b c).2.1
  | Op.ask q => (LazyEvaluationClient.ask_question b c q).2.1

/-- Run a finite interleaving of loop operations from a starting client. -/
def runOps (g : Globals) (b : Backend) (c : LazyEvaluationClient) (ops : List Op) :
    LazyEvaluationClient :=
  ops.foldl (runOp g b) c

/-- Two clients that agree on every field except the question history. -/
def sameButLog (c1 c2 : LazyEvaluationClient) : Prop :=
  c1.model = c2.model ∧ c1.max_tokens = c2.max_tokens ∧ c1.state = c2.state ∧ c1.system = c2.system

/-- An `ask_question` call only ever appends entries to the question history:
every other field of the client, the tracker state included, is returned
unchanged, on the error paths as well as on success. -/
theorem ask_question_appends_only (b : Backend) (c : LazyEvaluationClient) (q : String) :
    ∃ t : List String, (LazyEvaluationClient.ask_question b c q).2.1
      = { c with question_history := c.question_history ++ t } := by
  unfold LazyEvaluationClient.ask_question
  split
  · exact ⟨[], by simp⟩
  · split
    · exact ⟨[], by simp⟩
    · split
      · exact ⟨[q], rfl⟩
      · rename_i text htext
        exact ⟨[q, pyStrip text], rfl⟩

/-- The post-call client of `ask_question` agrees with the pre-call client on
everything but the question history. -/
theorem ask_question_sameButLog (b : Backend) (c : LazyEvaluationClient) (q : String) :
    sameButLog ((LazyEvaluationClient.ask_question b c q).2.1) c := by
  obtain ⟨t, ht⟩ := ask_question_appends_only b c q
  rw [ht]
  exact ⟨rfl, rfl, rfl, rfl⟩

/-- `get_next_step` reads only the tracker state, the model name, the token
ceiling and the globals, so it maps clients agreeing on everything but the
question history to clients that again so agree. -/
theorem get_next_step_congr (g : Globals) (b : Backend) {c1 c2 : LazyEvaluationClient}
    (h : sameButLog c1 c2) :
    sameButLog ((LazyEvaluationClient.get_next_step g b c1).2.1)
      ((LazyEvaluationClient.get_next_step g b c2).2.1) := by
  obtain ⟨m1, mt1, cs1, sy1, qh1⟩ := c1
  obtain ⟨m2, mt2, cs2, sy2, qh2⟩ := c2
  obtain ⟨hm, hmt, hcs, hsy⟩ := h
  obtain rfl : m1 = m2 := hm
  obtain rfl : mt1 = mt2 := hmt
  obtain rfl : cs1 = cs2 := hcs
  obtain rfl : sy1 = sy2 := hsy
  unfold LazyEvaluationClient.get_next_step
  dsimp only
  repeat' split
  all_goals exact ⟨rfl, rfl, rfl, rfl⟩

/-- One loop operation preserves agreement-except-log. -/
theorem runOp_congr (g : Globals) (b : Backend) (op : Op) {c1 c2 : LazyEvaluationClient}
    (h : sameButLog c1 c2) : sameButLog (runOp g b c1 op) (runOp g b c2 op) := by
  cases op with
  | reveal => exact get_next_step_congr g b h
  | ask q =>
      obtain ⟨t1, ht1⟩ := ask_question_appends_only b c1 q
      obtain ⟨t2, ht2⟩ := ask_question_appends_only b c2 q
      show sameButLog ((LazyEvaluationClient.ask_question b c1 q).2.1)
        ((LazyEvaluationClient.ask_question b c2 q).2.1)
      rw [ht1, ht2]
      exact h

/-- A whole interleaving preserves agreement-except-log. -/
theorem runOps_congr (g : Globals) (b : Backend) (ops : List Op)
    {c1 c2 : LazyEvaluationClient} (h : sameButLog c1 c2) :
    sameButLog (runOps g b c1 ops) (runOps g b c2 ops) := by
  induction ops generalizing c1 c2 with
  | nil => exact h
  | cons op rest ih => exact ih (runOp_congr g b op h)

/-- Deleting the question operations from an interleaving does not change the
final tracker state. -/
theorem runOps_filter_reveal (g : Globals) (b : Backend) (ops : List Op) :
    ∀ c : LazyEvaluationClient,
      (runOps g b c ops).state = (runOps g b c (ops.filter Op.isReveal)).state := by
  induction ops with
  | nil => intro c; rfl
  | cons op rest ih =>
      intro c
      cases op with
      | reveal =>
          simpa [runOps, List.filter, Op.isReveal] using ih (runOp g b c Op.reveal)
      | ask q =>
          have h1 : sameButLog (runOp g b c (Op.ask q)) c := ask_question_sameButLog b c q
          have h2 := runOps_congr g b rest h1
          calc (runOps g b c (Op.ask q :: rest)).state
              = (runOps g b (runOp g b c (Op.ask q)) rest).state := rfl
            _ = (runOps g b c rest).state := h2.2.2.1
            _ = (runOps g b c (rest.filter Op.isReveal)).state := ih c
            _ = (runOps g b c ((Op.ask q :: rest).filter Op.isReveal)).state := by
                  simp [List.filter, Op.isReveal]

/-- Claim C6 (confirmed).  For every initialized client and every finite
interleaving of question and step-reveal operations, the question calls have
no effect on the tracker: the final `steps` and `current_step` equal those of
the run with all question operations removed; and a single `ask_question`
call, on any client, leaves the tracker state untouched — its only effect on
stored state is appending entries to the question history. -/
theorem C6_question_isolation (g : Globals) (b : Backend) (c : LazyEvaluationClient)
    (hc : c.state ≠ none) :
    (∀ ops : List Op,
      (runOps g b c ops).state = (runOps g b c (ops.filter Op.isReveal)).state) ∧
    (∀ (d : LazyEvaluationClient) (q : String),
      ((LazyEvaluationClient.ask_question b d q).2.1).state = d.state ∧
      ∃ t : List String, (LazyEvaluationClient.ask_question b d q).2.1
        = { d with question_history := d.question_history ++ t }) := by
  refine ⟨fun ops => runOps_filter_reveal g b ops c, fun d q => ⟨?_, ask_question_appends_only b d q⟩⟩
  obtain ⟨t, ht⟩ := ask_question_appends_only b d q
  rw [ht]

/-- Claim C6, witness at concrete inputs: one question interleaved before one
reveal does not change the tracker state the reveal produces, and a single
question call leaves the tracker untouched. -/
theorem C6_witness :
    (runOps sessionGlobals doneBackend clientA [Op.ask "why?", Op.reveal]).state
      = (runOps sessionGlobals doneBackend clientA
          ([Op.ask "why?", Op.reveal].filter Op.isReveal)).state ∧
    ((LazyEvaluationClient.ask_question doneBackend clientA "why?").2.1).state
      = clientA.state :=
  ⟨(C6_question_isolation sessionGlobals doneBackend clientA (by decide)).1
      [Op.ask "why?", Op.reveal],
   ((C6_question_isolation sessionGlobals doneBackend clientA (by decide)).2 clientA "why?").1⟩
